import Mathlib

/-!
Verification of the CEP-lookup racer (`main.go`).

The program queries two address providers (BrasilAPI and ViaCEP)
concurrently for a postal code and prints the outcome of whichever
channel operation fires first in `main`'s `select`, under a 1-second
context deadline.

The embedding below translates `main.go`:
* the three record types (`Address`, `BrasilAPIResponse`,
  `ViaCEPResponse`) keep the source's field names and json tags;
* JSON decoding (`encoding/json` applied to flat structs whose fields
  are all `string`) is modelled by `decodeBrasilAPIResponse` /
  `decodeViaCEPResponse` over a `Json` value type: an absent or `null`
  member leaves the zero value `""`, a later duplicate member
  overwrites an earlier one, a non-string member value or a non-object
  document is a decode error;
* `fetchAddress` is modelled as a function from the outcome of the
  network call (an oracle input: transport error, or a status code with
  a parsed-or-malformed body) to the list of channel sends it performs;
* `main`'s `select` over the four channels and `ctx.Done()` is modelled
  by the predicate `raceCanResolve` over optional arrival times of each
  goroutine's single send, keeping Go's nondeterministic choice when
  two channel operations are ready at the same instant.
-/

namespace CepRace

/-- Address structure (main.go lines 13-19); field names follow the
source (`Cep`/`Logradouro`/`Bairro`/`Localidade`/`Uf`), which the spec
calls postalCode/street/neighborhood/city/state. -/
structure Address where
  cep : String
  logradouro : String
  bairro : String
  localidade : String
  uf : String
deriving DecidableEq, Repr

/-- Response structure for BrasilAPI (main.go lines 22-29). -/
structure BrasilAPIResponse where
  cep : String
  state : String
  city : String
  neighborhood : String
  street : String
  service : String
deriving DecidableEq, Repr

/-- Response structure for ViaCEP (main.go lines 32-43). -/
structure ViaCEPResponse where
  cep : String
  logradouro : String
  complemento : String
  bairro : String
  localidade : String
  uf : String
  ibge : String
  gia : String
  ddd : String
  siafi : String
deriving DecidableEq, Repr

/-- JSON documents, for modelling the bodies fed to `json.Decode`. -/
inductive Json where
  | null
  | bool (b : Bool)
  | num (n : Int)
  | str (s : String)
  | arr (elems : List Json)
  | obj (fields : List (String × Json))

/-- The value of member `key` of a JSON object, with Go's duplicate
rule: members are processed in order, so a later duplicate overwrites
an earlier one (hence the lookup in the reversed list). -/
def lookupLast (fields : List (String × Json)) (key : String) : Option Json :=
  fields.reverse.lookup key

/-- The string value a `string`-typed struct field receives from member
`key` when decoding succeeds: the member's string if present, `""` when
the member is absent or `null`. -/
def stringFieldValue (fields : List (String × Json)) (key : String) : String :=
  match lookupLast fields key with
  | some (.str s) => s
  | _ => ""

/-- Decoding of one `string`-typed struct field by `encoding/json`: an
absent member or JSON `null` leaves the field at its zero value `""`, a
JSON string is taken verbatim, any other value is an unmarshal error. -/
def decodeStringField (fields : List (String × Json)) (key : String) :
    Except String String :=
  match lookupLast fields key with
  | none => .ok ""
  | some .null => .ok ""
  | some (.str s) => .ok s
  | some _ => .error ("json: cannot unmarshal value into field " ++ key)

/-- `json.Decode` into `BrasilAPIResponse` (tags at main.go lines
22-29): each tagged field is read off the top-level object; a
non-object document is an unmarshal error. -/
def decodeBrasilAPIResponse (j : Json) : Except String BrasilAPIResponse :=
  match j with
  | .obj fields => do
      let cep ← decodeStringField fields "cep"
      let state ← decodeStringField fields "state"
      let city ← decodeStringField fields "city"
      let neighborhood ← decodeStringField fields "neighborhood"
      let street ← decodeStringField fields "street"
      let service ← decodeStringField fields "service"
      .ok ⟨cep, state, city, neighborhood, street, service⟩
  | _ => .error "json: cannot unmarshal value into BrasilAPIResponse"

/-- `json.Decode` into `ViaCEPResponse` (tags at main.go lines 32-43). -/
def decodeViaCEPResponse (j : Json) : Except String ViaCEPResponse :=
  match j with
  | .obj fields => do
      let cep ← decodeStringField fields "cep"
      let logradouro ← decodeStringField fields "logradouro"
      let complemento ← decodeStringField fields "complemento"
      let bairro ← decodeStringField fields "bairro"
      let localidade ← decodeStringField fields "localidade"
      let uf ← decodeStringField fields "uf"
      let ibge ← decodeStringField fields "ibge"
      let gia ← decodeStringField fields "gia"
      let ddd ← decodeStringField fields "ddd"
      let siafi ← decodeStringField fields "siafi"
      .ok ⟨cep, logradouro, complemento, bairro, localidade, uf, ibge, gia, ddd, siafi⟩
  | _ => .error "json: cannot unmarshal value into ViaCEPResponse"

/-- Mapping of a decoded BrasilAPI response to `Address`
(main.go lines 69-75). -/
def mapBrasilAPIResponse (r : BrasilAPIResponse) : Address :=
  { cep := r.cep
    logradouro := r.street
    bairro := r.neighborhood
    localidade := r.city
    uf := r.state }

/-- Mapping of a decoded ViaCEP response to `Address`
(main.go lines 84-90). -/
def mapViaCEPResponse (r : ViaCEPResponse) : Address :=
  { cep := r.cep
    logradouro := r.logradouro
    bairro := r.bairro
    localidade := r.localidade
    uf := r.uf }

/-- Outcome of `client.Do` (an oracle input to `fetchAddress`): either
a transport error, or a response carrying a status code and a body that
is either parsed JSON or malformed (`.error`, e.g. EOF on an empty
body). -/
inductive NetResult where
  | netError (e : String)
  | response (status : Nat) (body : Except String Json)

/-- A single send performed by `fetchAddress`: an `Address` on its
result channel or an error on its error channel. -/
inductive ChannelMsg where
  | result (addr : Address)
  | err (e : String)
deriving DecidableEq, Repr

/-- fetchAddress (main.go lines 48-95), as the list of channel sends it
performs, given the outcome of the network call and the `isBrasilAPI`
flag that selects the schema to decode into. The status code of the
response is never looked at. -/
def fetchAddress (net : NetResult) (isBrasilAPI : Bool) : List ChannelMsg :=
  match net with
  | .netError e => [.err e]
  | .response _status body =>
    if isBrasilAPI then
      match body.bind decodeBrasilAPIResponse with
      | .error e => [.err e]
      | .ok r => [.result (mapBrasilAPIResponse r)]
    else
      match body.bind decodeViaCEPResponse with
      | .error e => [.err e]
      | .ok r => [.result (mapViaCEPResponse r)]

/-- The default postal code and the selection of `os.Args[1]` when
present (main.go lines 98-104). `osArgs` models `os.Args`, whose first
element is the program name. -/
def mainCep (osArgs : List String) : String :=
  if h : 1 < osArgs.length then osArgs.get ⟨1, h⟩ else "01153000"

/-- The BrasilAPI request URL (main.go line 107). -/
def buildBrasilAPIURL (cep : String) : String :=
  "https://brasilapi.com.br/api/cep/v1/" ++ cep

/-- The ViaCEP request URL (main.go line 108). -/
def buildViaCEPURL (cep : String) : String :=
  "http://viacep.com.br/ws/" ++ cep ++ "/json/"

/-- The pair of request URLs `main` builds, both parameterized by the
single selected key (main.go lines 97-108). -/
def mainURLs (osArgs : List String) : String × String :=
  (buildBrasilAPIURL (mainCep osArgs), buildViaCEPURL (mainCep osArgs))

/-- Whether a character may appear in a URL string accepted by Go's
`net/url` parser: `url.Parse` rejects ASCII control bytes (below 0x20,
and DEL 0x7f); all bytes of a multi-byte UTF-8 character are at least
0x80, so the check per `Char` is equivalent to Go's check per byte. -/
def urlCharOK (c : Char) : Bool :=
  decide (0x20 ≤ c.toNat) && decide (c.toNat ≠ 0x7f)

/-- Hexadecimal digit, as accepted in a percent-escape. -/
def isHexChar (c : Char) : Bool :=
  c.isDigit || ('a' ≤ c && c ≤ 'f') || ('A' ≤ c && c ≤ 'F')

/-- Whether every percent sign in the character list is followed by two
hexadecimal digits. `url.Parse` rejects an invalid percent-escape in
the path of the URL; this check is conservative in that it also rejects
invalid escapes after a `?` or `#`, where Go may accept them, so it
only narrows the set of URLs the model treats as well-formed. -/
def percentEscapesOK : List Char → Bool
  | [] => true
  | '%' :: a :: b :: rest => isHexChar a && isHexChar b && percentEscapesOK rest
  | '%' :: _ => false
  | _ :: rest => percentEscapesOK rest

/-- Whether `http.NewRequestWithContext` succeeds on the URL, i.e.
whether `net/url` parses it: for the URLs this program builds (a fixed
well-formed prefix followed by the raw key) this is the absence of
control characters and of invalid percent-escapes. -/
def validRequestURL (url : String) : Bool :=
  url.data.all urlCharOK && percentEscapesOK url.data

/-- The observable behavior of one `fetchAddress` goroutine: it either
performs its channel sends, or the process panics. -/
inductive FetchBehavior where
  | panics
  | sends (msgs : List ChannelMsg)
deriving DecidableEq, Repr

/-- A run of `fetchAddress` including request construction (main.go
line 50): the error returned by `http.NewRequestWithContext` is
discarded with `req, _ :=`, so when the URL is rejected by the parser,
`req` is `nil` and `client.Do(req)` dereferences a nil pointer
(`net/http` reads `req.URL` first), panicking the process before any
channel send. -/
def fetchAddressRun (url : String) (net : NetResult) (isBrasilAPI : Bool) :
    FetchBehavior :=
  if validRequestURL url then .sends (fetchAddress net isBrasilAPI) else .panics

/-- The channel sends a `FetchBehavior` performs (none on a panic). -/
def sentMsgs : FetchBehavior → List ChannelMsg
  | .panics => []
  | .sends msgs => msgs

/-- The two providers raced by `main`. -/
inductive Provider where
  | brasilAPI
  | viaCEP
deriving DecidableEq, Repr

/-- The single signal a provider goroutine delivers: an `Address` on
its result channel or an error on its error channel. -/
inductive Signal where
  | success (addr : Address)
  | failure (e : String)
deriving DecidableEq, Repr

/-- The resolution of `main`'s `select` (main.go lines 127-145): one of
the four channel branches, or the `ctx.Done()` timeout branch. -/
inductive Outcome where
  | resolved (p : Provider) (s : Signal)
  | timeout
deriving DecidableEq, Repr

/-- Whether the optional arrival `(t, signal)` has not occurred
strictly before time `d`. -/
def arrivalNotBefore (arrival : Option (Nat × Signal)) (d : Nat) : Bool :=
  match arrival with
  | none => true
  | some (t, _) => decide (d ≤ t)

/-- The `select` in `main` (lines 127-145) with the 1-second context of
line 117, as a predicate on outcomes: each provider goroutine delivers
at most one signal, at an arrival time (`none` if it never reports);
`ctx.Done()` fires at the deadline `d`. The branch taken is the first
to become ready: a provider branch is possible when its signal arrived
before the deadline and no later than the sibling's; the timeout branch
is possible when no signal arrived strictly before the deadline. Go's
`select` chooses among simultaneously ready branches
nondeterministically, which is why this is a predicate and not a
function. -/
def raceCanResolve (brasil viacep : Option (Nat × Signal)) (d : Nat) :
    Outcome → Bool
  | .resolved .brasilAPI s =>
      match brasil with
      | some (t, sig) =>
          decide (sig = s) && decide (t < d) &&
            (match viacep with
             | some (t2, _) => decide (t ≤ t2)
             | none => true)
      | none => false
  | .resolved .viaCEP s =>
      match viacep with
      | some (t, sig) =>
          decide (sig = s) && decide (t < d) &&
            (match brasil with
             | some (t2, _) => decide (t ≤ t2)
             | none => true)
      | none => false
  | .timeout => arrivalNotBefore brasil d && arrivalNotBefore viacep d

/-- The race deadline: `context.WithTimeout(..., 1*time.Second)` at
main.go line 117, in milliseconds. -/
def raceDeadlineMs : Nat := 1000

/-- The line `main` prints for each outcome (main.go lines 127-145). -/
def mainMessage : Outcome → String
  | .resolved .brasilAPI (.success a) =>
      "Endereço (Brasil API): " ++ a.logradouro ++ ", " ++ a.bairro ++ ", " ++
        a.localidade ++ " - " ++ a.uf
  | .resolved .brasilAPI (.failure e) => "Erro (Brasil API): " ++ e
  | .resolved .viaCEP (.success a) =>
      "Endereço (ViaCEP): " ++ a.logradouro ++ ", " ++ a.bairro ++ ", " ++
        a.localidade ++ " - " ++ a.uf
  | .resolved .viaCEP (.failure e) => "Erro (ViaCEP): " ++ e
  | .timeout => "Timeout: Nenhuma das APIs respondeu em tempo hábil."

/-! Helper lemmas, shared by the claim theorems. -/

theorem exceptBind_ok {α β : Type} {x : Except String α} {f : α → Except String β}
    {r : β} (h : x >>= f = .ok r) : ∃ a, x = .ok a ∧ f a = .ok r := by
  cases x with
  | error e => exact absurd h (by simp [Bind.bind, Except.bind])
  | ok a => exact ⟨a, rfl, by simpa [Bind.bind, Except.bind] using h⟩

theorem decodeStringField_ok_val {fields : List (String × Json)} {key v : String}
    (h : decodeStringField fields key = .ok v) : v = stringFieldValue fields key := by
  unfold decodeStringField at h
  unfold stringFieldValue
  rcases hl : lookupLast fields key with _ | j
  · rw [hl] at h
    exact (Except.ok.injEq .. ▸ h.symm)
  · rw [hl] at h
    cases j <;> simp_all

theorem fetchAddress_sends_one (net : NetResult) (b : Bool) :
    ∃ m, fetchAddress net b = [m] := by
  unfold fetchAddress
  cases net with
  | netError e => exact ⟨.err e, rfl⟩
  | response st body =>
    cases b <;> simp only [Bool.false_eq_true, if_true, if_false, ite_self]
    · cases body.bind decodeViaCEPResponse with
      | error e => exact ⟨.err e, by simp_all⟩
      | ok r => exact ⟨.result (mapViaCEPResponse r), by simp_all⟩
    · cases body.bind decodeBrasilAPIResponse with
      | error e => exact ⟨.err e, by simp_all⟩
      | ok r => exact ⟨.result (mapBrasilAPIResponse r), by simp_all⟩

theorem strAppend_ne_empty (s t : String) (hs : s ≠ "") : s ++ t ≠ "" := by
  intro h
  apply hs
  cases s with | mk ds =>
  cases t with | mk dt =>
  have h2 : ds ++ dt = ([] : List Char) := congrArg String.data h
  have h3 : ds = [] := (List.append_eq_nil.mp h2).1
  simp [h3]

theorem mainMessage_ne_empty (o : Outcome) : mainMessage o ≠ "" := by
  rcases o with ⟨p, s⟩ | _
  · rcases p <;> rcases s <;>
      · simp only [mainMessage]
        repeat apply strAppend_ne_empty
        decide
  · decide

theorem race_total (brasil viacep : Option (Nat × Signal)) (d : Nat) :
    ∃ o, raceCanResolve brasil viacep d o = true := by
  rcases brasil with _ | ⟨t1, s1⟩
  · rcases viacep with _ | ⟨t2, s2⟩
    · exact ⟨.timeout, rfl⟩
    · by_cases h : t2 < d
      · exact ⟨.resolved .viaCEP s2, by simp [raceCanResolve, h]⟩
      · exact ⟨.timeout, by simp [raceCanResolve, arrivalNotBefore]; omega⟩
  · rcases viacep with _ | ⟨t2, s2⟩
    · by_cases h : t1 < d
      · exact ⟨.resolved .brasilAPI s1, by simp [raceCanResolve, h]⟩
      · exact ⟨.timeout, by simp [raceCanResolve, arrivalNotBefore]; omega⟩
    · by_cases h1 : t1 < d
      · by_cases h12 : t1 ≤ t2
        · exact ⟨.resolved .brasilAPI s1, by simp [raceCanResolve, h1, h12]⟩
        · exact ⟨.resolved .viaCEP s2, by simp [raceCanResolve]; omega⟩
      · by_cases h2 : t2 < d
        · exact ⟨.resolved .viaCEP s2, by simp [raceCanResolve]; omega⟩
        · exact ⟨.timeout, by simp [raceCanResolve, arrivalNotBefore]; omega⟩

/-! The claims. -/

/-- C3: for every raw BrasilAPI response, the normalized `Address` is
exactly the field-by-field mapping (postalCode from the raw cep, street
from the raw street, neighborhood from the raw neighborhood, city from
the raw city, state from the raw state), and the crafted raw response
with cep `01001000`, street `Praça da Sé`, neighborhood `Sé`, city
`São Paulo` and state `SP` maps, through the full decode-and-map path
of `fetchAddress`, to the `Address` with exactly those values. -/
theorem claimC3 :
    (∀ r : BrasilAPIResponse,
      mapBrasilAPIResponse r =
        { cep := r.cep, logradouro := r.street, bairro := r.neighborhood,
          localidade := r.city, uf := r.state }) ∧
    fetchAddress (.response 200 (.ok (.obj
        [("cep", .str "01001000"), ("street", .str "Praça da Sé"),
         ("neighborhood", .str "Sé"), ("city", .str "São Paulo"),
         ("state", .str "SP")]))) true
      = [.result { cep := "01001000", logradouro := "Praça da Sé",
                   bairro := "Sé", localidade := "São Paulo", uf := "SP" }] :=
  ⟨fun _ => rfl, by decide⟩

/-- C8: both request URLs embed the key directly and unescaped into the
fixed templates: the URL text is exactly the template prefix (and, for
ViaCEP, suffix) with the key's characters in between, unchanged — so no
URL encoding or validation is applied to the key. -/
theorem claimC8 (key : String) :
    (buildBrasilAPIURL key).data
        = "https://brasilapi.com.br/api/cep/v1/".data ++ key.data ∧
    (buildViaCEPURL key).data
        = "http://viacep.com.br/ws/".data ++ (key.data ++ "/json/".data) ∧
    (buildBrasilAPIURL key).data.drop 36 = key.data ∧
    ((buildViaCEPURL key).data.drop 24).take key.data.length = key.data := by
  refine ⟨rfl, ?_, ?_, ?_⟩
  · show (("http://viacep.com.br/ws/".data ++ key.data) ++ "/json/".data) = _
    exact List.append_assoc ..
  · show ("https://brasilapi.com.br/api/cep/v1/".data ++ key.data).drop 36 = key.data
    have h36 : 36 = "https://brasilapi.com.br/api/cep/v1/".data.length := by decide
    rw [h36, List.drop_left]
  · show ((("http://viacep.com.br/ws/".data ++ key.data) ++ "/json/".data).drop 24).take
        key.data.length = key.data
    have h24 : 24 = "http://viacep.com.br/ws/".data.length := by decide
    rw [List.append_assoc, h24, List.drop_left, List.take_left]

/-- C10: with no command-line argument past the program name, the key
is the default `01153000`; with at least one argument, the key is the
first argument; in both cases the same single key parameterizes both
provider URLs. -/
theorem claimC10 :
    (∀ prog : String, mainCep [prog] = "01153000") ∧
    mainCep [] = "01153000" ∧
    (∀ (prog arg : String) (rest : List String),
      mainCep (prog :: arg :: rest) = arg) ∧
    (∀ osArgs : List String,
      mainURLs osArgs
        = (buildBrasilAPIURL (mainCep osArgs), buildViaCEPURL (mainCep osArgs))) :=
  ⟨fun _ => rfl, rfl,
   fun prog arg rest => by
     have h : 1 < (prog :: arg :: rest).length := by
       simp only [List.length_cons]
       omega
     unfold mainCep
     rw [dif_pos h]
     rfl,
   fun _ => rfl⟩

/-- C9: a single invocation of `fetchAddress` writes at most one value
into the observation point: counting request construction, it performs
at most one channel send, and whenever the request is constructed it
sends exactly one message — one `Address` on the result channel or one
error on the error channel, never both. -/
theorem claimC9 (url : String) (net : NetResult) (b : Bool) :
    (sentMsgs (fetchAddressRun url net b)).length ≤ 1 ∧
    ∃ m, fetchAddress net b = [m] ∧
      ((∃ a, m = ChannelMsg.result a) ∨ (∃ e, m = ChannelMsg.err e)) := by
  obtain ⟨m, hm⟩ := fetchAddress_sends_one net b
  constructor
  · unfold fetchAddressRun
    by_cases h : validRequestURL url = true
    · simp [h, sentMsgs, hm]
    · simp [h, sentMsgs]
  · refine ⟨m, hm, ?_⟩
    cases m with
    | result a => exact Or.inl ⟨a, rfl⟩
    | err e => exact Or.inr ⟨e, rfl⟩

/-- C5: `fetchAddress` never inspects the HTTP status code — its
behavior is identical for any two status codes, and for every response
(of any status, including non-2xx) whose body decodes under the
selected provider schema it sends success with the mapped `Address`;
in particular a 404 response with the mismatched body
`{"message": "Not Found"}` yields a success with all fields blank. -/
theorem claimC5 (st st2 : Nat) (body : Except String Json) :
    (∀ b, fetchAddress (.response st body) b = fetchAddress (.response st2 body) b) ∧
    (∀ r, body.bind decodeBrasilAPIResponse = .ok r →
      fetchAddress (.response st body) true = [.result (mapBrasilAPIResponse r)]) ∧
    (∀ r, body.bind decodeViaCEPResponse = .ok r →
      fetchAddress (.response st body) false = [.result (mapViaCEPResponse r)]) ∧
    fetchAddress (.response 404 (.ok (.obj [("message", .str "Not Found")]))) false
      = [.result { cep := "", logradouro := "", bairro := "",
                   localidade := "", uf := "" }] := by
  refine ⟨fun b => rfl, fun r h => ?_, fun r h => ?_, by decide⟩
  · simp [fetchAddress, h]
  · simp [fetchAddress, h]

/-- C5 witness: a non-2xx status (500) with a body holding only a cep
member still reports success with the mapped address. -/
theorem claimC5_spot :
    (Except.ok (Json.obj [("cep", Json.str "01001000")]) : Except String Json).bind
        decodeBrasilAPIResponse
      = .ok { cep := "01001000", state := "", city := "", neighborhood := "",
              street := "", service := "" } ∧
    fetchAddress (.response 500 (.ok (.obj [("cep", .str "01001000")]))) true
      = [.result { cep := "01001000", logradouro := "", bairro := "",
                   localidade := "", uf := "" }] :=
  ⟨rfl, (claimC5 500 200 (.ok (.obj [("cep", .str "01001000")]))).2.1
    { cep := "01001000", state := "", city := "", neighborhood := "",
      street := "", service := "" } rfl⟩

/-- C6: when the network call succeeds, an error is sent if and only if
decoding the body under the selected provider schema fails (and the
error sent is the decode error), and in that case no `Address` is sent
on the result channel. -/
theorem claimC6 (st : Nat) (body : Except String Json) :
    ((∀ e, ChannelMsg.err e ∈ fetchAddress (.response st body) true ↔
        body.bind decodeBrasilAPIResponse = .error e) ∧
     (∀ e, body.bind decodeBrasilAPIResponse = .error e →
        ∀ a, ChannelMsg.result a ∉ fetchAddress (.response st body) true)) ∧
    ((∀ e, ChannelMsg.err e ∈ fetchAddress (.response st body) false ↔
        body.bind decodeViaCEPResponse = .error e) ∧
     (∀ e, body.bind decodeViaCEPResponse = .error e →
        ∀ a, ChannelMsg.result a ∉ fetchAddress (.response st body) false)) := by
  refine ⟨⟨fun e => ?_, fun e h a => ?_⟩, ⟨fun e => ?_, fun e h a => ?_⟩⟩
  · cases hd : body.bind decodeBrasilAPIResponse <;>
      simp [fetchAddress, hd, eq_comm]
  · simp [fetchAddress, h]
  · cases hd : body.bind decodeViaCEPResponse <;>
      simp [fetchAddress, hd, eq_comm]
  · simp [fetchAddress, h]

/-- C6 witness: a malformed body (decode error) makes `fetchAddress`
send that error and no address. -/
theorem claimC6_spot :
    ChannelMsg.err "json: malformed body" ∈
      fetchAddress (.response 200 (.error "json: malformed body")) true ∧
    ChannelMsg.result { cep := "", logradouro := "", bairro := "",
                        localidade := "", uf := "" } ∉
      fetchAddress (.response 200 (.error "json: malformed body")) true :=
  ⟨((claimC6 200 (.error "json: malformed body")).1.1 "json: malformed body").mpr
      rfl,
   (claimC6 200 (.error "json: malformed body")).1.2 "json: malformed body"
      rfl _⟩

/-- C4: the normalized `Address` built from a decoded ViaCEP body is a
function of the members `cep`, `logradouro`, `bairro`, `localidade` and
`uf` only (mapped to postalCode, street, neighborhood, city and state);
a member the provider omits yields the empty string, and the remaining
decoded fields `complemento`, `ibge`, `gia`, `ddd` and `siafi` do not
influence the `Address`. -/
theorem claimC4 (fields : List (String × Json)) (r : ViaCEPResponse)
    (h : decodeViaCEPResponse (.obj fields) = .ok r) :
    mapViaCEPResponse r =
      { cep := stringFieldValue fields "cep",
        logradouro := stringFieldValue fields "logradouro",
        bairro := stringFieldValue fields "bairro",
        localidade := stringFieldValue fields "localidade",
        uf := stringFieldValue fields "uf" } ∧
    (∀ r2 : ViaCEPResponse, r2.cep = r.cep → r2.logradouro = r.logradouro →
      r2.bairro = r.bairro → r2.localidade = r.localidade → r2.uf = r.uf →
      mapViaCEPResponse r2 = mapViaCEPResponse r) ∧
    (lookupLast fields "cep" = none → (mapViaCEPResponse r).cep = "") ∧
    (lookupLast fields "logradouro" = none → (mapViaCEPResponse r).logradouro = "") ∧
    (lookupLast fields "bairro" = none → (mapViaCEPResponse r).bairro = "") ∧
    (lookupLast fields "localidade" = none → (mapViaCEPResponse r).localidade = "") ∧
    (lookupLast fields "uf" = none → (mapViaCEPResponse r).uf = "") := by
  obtain ⟨cep, e1, h⟩ := exceptBind_ok h
  obtain ⟨logradouro, e2, h⟩ := exceptBind_ok h
  obtain ⟨complemento, e3, h⟩ := exceptBind_ok h
  obtain ⟨bairro, e4, h⟩ := exceptBind_ok h
  obtain ⟨localidade, e5, h⟩ := exceptBind_ok h
  obtain ⟨uf, e6, h⟩ := exceptBind_ok h
  obtain ⟨ibge, e7, h⟩ := exceptBind_ok h
  obtain ⟨gia, e8, h⟩ := exceptBind_ok h
  obtain ⟨ddd, e9, h⟩ := exceptBind_ok h
  obtain ⟨siafi, e10, h⟩ := exceptBind_ok h
  injection h with h
  subst h
  have v1 := decodeStringField_ok_val e1
  have v2 := decodeStringField_ok_val e2
  have v4 := decodeStringField_ok_val e4
  have v5 := decodeStringField_ok_val e5
  have v6 := decodeStringField_ok_val e6
  have hmain : mapViaCEPResponse
      ⟨cep, logradouro, complemento, bairro, localidade, uf, ibge, gia, ddd, siafi⟩ =
      { cep := stringFieldValue fields "cep",
        logradouro := stringFieldValue fields "logradouro",
        bairro := stringFieldValue fields "bairro",
        localidade := stringFieldValue fields "localidade",
        uf := stringFieldValue fields "uf" } := by
    rw [mapViaCEPResponse, v1, v2, v4, v5, v6]
  refine ⟨hmain, fun r2 q1 q2 q3 q4 q5 => ?_, ?_, ?_, ?_, ?_, ?_⟩
  · simp [mapViaCEPResponse, q1, q2, q3, q4, q5]
  all_goals intro hnone
  all_goals rw [hmain]
  all_goals simp [stringFieldValue, hnone]

/-- C4 witness: a ViaCEP body with only a `cep` member and two
irrelevant members (`ibge`, `ddd`) decodes and maps to an address whose
only non-blank field is the postal code. -/
theorem claimC4_spot :
    mapViaCEPResponse
        { cep := "01001", logradouro := "", complemento := "", bairro := "",
          localidade := "", uf := "", ibge := "355", gia := "", ddd := "11",
          siafi := "" } =
      { cep := "01001", logradouro := "", bairro := "", localidade := "",
        uf := "" } :=
  (claimC4 [("cep", .str "01001"), ("ibge", .str "355"), ("ddd", .str "11")]
    { cep := "01001", logradouro := "", complemento := "", bairro := "",
      localidade := "", uf := "", ibge := "355", gia := "", ddd := "11",
      siafi := "" } rfl).1

/-- C1: the race resolves to the first signal of any kind — when one
provider reports an error strictly before the sibling's (successful)
signal and before the deadline, the error branch is the only possible
resolution of the race, in either provider order, and the outcome
printed is that error. -/
theorem claimC1 (e : String) (a : Address) (te ts d : Nat)
    (hpending : te < ts) (hdl : te < d) :
    (raceCanResolve (some (te, .failure e)) (some (ts, .success a)) d
        (.resolved .brasilAPI (.failure e)) = true ∧
      ∀ o, raceCanResolve (some (te, .failure e)) (some (ts, .success a)) d o = true →
        o = .resolved .brasilAPI (.failure e)) ∧
    (raceCanResolve (some (ts, .success a)) (some (te, .failure e)) d
        (.resolved .viaCEP (.failure e)) = true ∧
      ∀ o, raceCanResolve (some (ts, .success a)) (some (te, .failure e)) d o = true →
        o = .resolved .viaCEP (.failure e)) ∧
    mainMessage (.resolved .brasilAPI (.failure e)) = "Erro (Brasil API): " ++ e ∧
    mainMessage (.resolved .viaCEP (.failure e)) = "Erro (ViaCEP): " ++ e := by
  refine ⟨⟨?_, ?_⟩, ⟨?_, ?_⟩, rfl, rfl⟩
  · simp [raceCanResolve]
    omega
  · intro o ho
    rcases o with ⟨p, s⟩ | _
    · rcases p <;> simp [raceCanResolve] at ho
      · simp [ho.1.1]
      · omega
    · simp [raceCanResolve, arrivalNotBefore] at ho
      omega
  · simp [raceCanResolve]
    omega
  · intro o ho
    rcases o with ⟨p, s⟩ | _
    · rcases p <;> simp [raceCanResolve] at ho
      · omega
      · simp [ho.1.1]
    · simp [raceCanResolve, arrivalNotBefore] at ho
      omega

/-- C1 witness: an error at 5ms beats a success at 500ms under a
1000ms deadline. -/
theorem claimC1_spot :
    5 < 500 ∧
    raceCanResolve (some (5, .failure "connection refused"))
      (some (500, .success { cep := "01153000", logradouro := "", bairro := "",
                             localidade := "", uf := "" }))
      raceDeadlineMs (.resolved .brasilAPI (.failure "connection refused")) = true :=
  ⟨by decide,
   (claimC1 "connection refused"
      { cep := "01153000", logradouro := "", bairro := "", localidade := "",
        uf := "" }
      5 500 raceDeadlineMs (by decide) (by decide)).1.1⟩

/-- C2: the race runs under the single shared deadline of 1 second
(1000 ms, from `context.WithTimeout(..., 1*time.Second)`); when neither
adapter reports a success or an error before the deadline, the race can
only resolve to Timeout — in particular, when the deadline is below the
minimum latency of all adapters, the outcome is Timeout and never a
success. -/
theorem claimC2 (brasil viacep : Option (Nat × Signal))
    (hb : ∀ t s, brasil = some (t, s) → raceDeadlineMs ≤ t)
    (hv : ∀ t s, viacep = some (t, s) → raceDeadlineMs ≤ t) :
    raceDeadlineMs = 1000 ∧
    raceCanResolve brasil viacep raceDeadlineMs .timeout = true ∧
    (∀ o, raceCanResolve brasil viacep raceDeadlineMs o = true → o = .timeout) ∧
    mainMessage .timeout = "Timeout: Nenhuma das APIs respondeu em tempo hábil." := by
  refine ⟨rfl, ?_, ?_, rfl⟩
  · unfold raceCanResolve arrivalNotBefore
    rcases brasil with _ | ⟨t1, s1⟩ <;> rcases viacep with _ | ⟨t2, s2⟩ <;>
      simp_all
  · intro o ho
    rcases o with ⟨p, s⟩ | _
    · exfalso
      rcases p <;> unfold raceCanResolve at ho
      · rcases hbr : brasil with _ | ⟨t1, s1⟩
        · simp [hbr] at ho
        · have := hb t1 s1 hbr
          rw [hbr] at ho
          simp at ho
          omega
      · rcases hvi : viacep with _ | ⟨t2, s2⟩
        · simp [hvi] at ho
        · have := hv t2 s2 hvi
          rw [hvi] at ho
          simp at ho
          omega
    · rfl

/-- C2 witness: a single slow provider (arrival at 1500 ms, above the
1000 ms deadline) and a silent sibling resolve to Timeout. -/
theorem claimC2_spot :
    raceCanResolve (some (1500, .failure "slow")) none raceDeadlineMs .timeout = true :=
  (claimC2 (some (1500, .failure "slow")) none
    (by
      rintro t s h
      simp only [Option.some.injEq, Prod.mk.injEq] at h
      rw [← h.1]
      decide)
    (fun t s h => by cases h)).2.1

/-- C7 counterexample: the claim quantifies over every key string, but
for the key `0115\n3000` (a newline, rejected by the URL parser) both
request URLs are invalid, the error discarded at main.go line 50 leaves
`req` nil, and `client.Do(nil)` panics — the process crashes regardless
of provider behavior. -/
theorem claimC7_bad :
    validRequestURL (buildViaCEPURL "0115\n3000") = false ∧
    fetchAddressRun (buildViaCEPURL "0115\n3000") (.netError "unused") false
      = .panics ∧
    fetchAddressRun (buildBrasilAPIURL "0115\n3000") (.netError "unused") true
      = .panics := by
  decide

/-- C7 (amended): for every key whose request URLs pass URL parsing
(no control characters, no invalid percent-escape) and every provider
behavior, each goroutine sends exactly one message instead of
panicking, the race always resolves to some outcome, and the message
printed for it is informative (nonempty). -/
theorem claimC7 (key : String) (netB netV : NetResult)
    (brasil viacep : Option (Nat × Signal)) (d : Nat)
    (hB : validRequestURL (buildBrasilAPIURL key) = true)
    (hV : validRequestURL (buildViaCEPURL key) = true) :
    (∃ m, fetchAddressRun (buildBrasilAPIURL key) netB true = .sends [m]) ∧
    (∃ m, fetchAddressRun (buildViaCEPURL key) netV false = .sends [m]) ∧
    (∃ o, raceCanResolve brasil viacep d o = true ∧ mainMessage o ≠ "") := by
  obtain ⟨m1, h1⟩ := fetchAddress_sends_one netB true
  obtain ⟨m2, h2⟩ := fetchAddress_sends_one netV false
  obtain ⟨o, ho⟩ := race_total brasil viacep d
  exact ⟨⟨m1, by simp [fetchAddressRun, hB, h1]⟩,
         ⟨m2, by simp [fetchAddressRun, hV, h2]⟩,
         ⟨o, ho, mainMessage_ne_empty o⟩⟩

/-- C7 witness: the default key `01153000` yields valid URLs, and with
both providers failing at the transport level each goroutine still
sends exactly one message. -/
theorem claimC7_spot :
    validRequestURL (buildBrasilAPIURL "01153000") = true ∧
    (∃ m, fetchAddressRun (buildBrasilAPIURL "01153000") (.netError "refused") true
        = .sends [m]) :=
  ⟨by decide,
   (claimC7 "01153000" (.netError "refused") (.netError "refused") none none
      raceDeadlineMs (by decide) (by decide)).1⟩

end CepRace
